import Mathlib

/-!
# Verification of the `web_worker` thread-bootstrap protocol

Shallow embedding of `src/js/worker.js` (the `onmessage` bootstrap handler and
the `spawn_worker` template it documents), together with spec-modelled parts of
the substrate that the repository consumes but does not ship in `src/` (the
once-guard of the toolchain-generated `__wasm_init_memory`, the memory-layout
check of the spawner, and the futex-style wait/notify primitive).

The worker script runs under `'use strict'` (line 1), and the identifiers
`mem`, `id`, `stack_top` and `wasm` are assigned without ever being declared in
the worker script (the `let cached_wasm; let mem;` declarations sit inside the
comment block of lines 3-12, which the file marks as belonging in the
spawner's own source).  The embedding therefore models strict-mode assignment:
an assignment to an undeclared identifier evaluates its right-hand side and
then throws a `ReferenceError`, rejecting the `async` handler.
-/

set_option autoImplicit false

namespace WebWorker

/-- JavaScript values, as far as the worker script manipulates them: the
fields of a startup message are an image reference, a shared-memory handle and
two numbers; any other expression the handler computes is `undefined`.
Handles and image references are modelled by identity (`Nat` tags), which is
JavaScript's reference semantics: passing a value passes the reference, it
never copies the underlying object. -/
inductive JSVal where
  | undefined
  | int (n : Int)
  | memory (handle : Nat)
  | wasmModule (ref : Nat)
  deriving Repr, DecidableEq

/-- A posted message is a JavaScript array of values (`spawn_worker` posts
`[cached_wasm, mem, id, stack_top]`). -/
abbrev Message := List JSVal

/-- The exceptional outcomes the worker script can produce: the strict-mode
`ReferenceError` from assigning an undeclared identifier, the `TypeError` from
indexing or property access on `undefined`, and the rejection of the awaited
`WebAssembly.instantiate`. -/
inductive JSError where
  | referenceError (name : String)
  | typeError
  | instantiationFailed
  deriving Repr, DecidableEq

/-- `a[i]` on a JavaScript array: `undefined` past the end. -/
def msgIndex (m : Message) (i : Nat) : JSVal :=
  m.getD i .undefined

/-- `v[i]` on a non-array JavaScript value: `undefined` for numbers, memory
handles and module references (none has numeric properties), and a
`TypeError` when `v` is `undefined`. -/
def jsIndex : JSVal → Nat → Except JSError JSVal
  | .undefined, _ => .error .typeError
  | .int _, _ => .ok .undefined
  | .memory _, _ => .ok .undefined
  | .wasmModule _, _ => .ok .undefined

/-- `v.compiled` in JavaScript: no value the handler can reach has a
`compiled` property (a `WebAssembly.Module` in particular does not), so the
access yields `undefined` — or a `TypeError` when `v` is `undefined`. -/
def jsCompiled : JSVal → Except JSError JSVal
  | .undefined => .error .typeError
  | .int _ => .ok .undefined
  | .memory _ => .ok .undefined
  | .wasmModule _ => .ok .undefined

/-- Which identifiers the worker script declares: none.  The
`let cached_wasm; let mem;` declarations sit inside the comment block
(lines 3-12), which the file itself marks as belonging in the spawner's
source files, so `mem`, `id`, `stack_top` and `wasm` are all assigned without
a declaration anywhere in the worker script's scope. -/
def workerDeclares (_name : String) : Bool :=
  false

/-- Strict-mode assignment `name = v` (worker.js line 1 is `'use strict'`):
the value is stored only if the identifier is declared somewhere in scope;
otherwise the assignment throws a `ReferenceError`.  ECMAScript resolves the
(unresolvable) reference first and throws at the write, so the right-hand
side has already been evaluated when the throw happens. -/
def strictAssign {α : Type} (declared : Bool) (name : String) (v : α) :
    Except JSError α :=
  if declared then .ok v else .error (.referenceError name)

/-- The view of an instantiated wasm instance that `worker.js` uses: the
mutable `__sp` stack-pointer global and the `__heap_base` global exported by
the image. -/
structure WasmInstance where
  sp : JSVal
  heap_base : Int
  deriving Repr, DecidableEq

/-- The two entry points of the design: the main entry used by the originating
context and the distinguished `child_entry_point` used by spawned contexts. -/
inductive EntryPoint where
  | main
  | child
  deriving Repr, DecidableEq

/-- The observable operations the handler performs on the wasm side, in
order. -/
inductive Effect where
  | instantiate (image : JSVal) (importedMemory : JSVal)
  | setSp (v : JSVal)
  | initMemory
  | initTls
  | initHook (heapBase : Int)
  | callEntry (e : EntryPoint)
  deriving Repr, DecidableEq

/-- Outcome of one run of the handler: the trace of wasm-side operations it
performed before finishing or throwing, and the error the `async` handler
rejected with (`none` if it ran to completion). -/
structure HandlerResult where
  trace : List Effect
  error : Option JSError
  deriving Repr, DecidableEq

/-- Shallow embedding of the `onmessage` handler of `src/js/worker.js`,
line by line, including its strict-mode error behaviour.  `inst` abstracts
`WebAssembly.instantiate` (binary loading is an external collaborator per the
spec): it receives the image argument and the memory import and either yields
an instance or fails, rejecting the `await`.  Each assignment to one of the
undeclared worker globals first evaluates its right-hand side and then goes
through `strictAssign`; a thrown error ends the run with the trace collected
so far. -/
def onmessage (inst : JSVal → JSVal → Option WasmInstance)
    (message : Message) : HandlerResult :=
  -- line 15: `data = data[0]`; `data` is the declared destructured parameter
  let data := msgIndex message 0
  -- line 16: `mem = data[1]`
  match jsIndex data 1 with
  | .error e => { trace := [], error := some e }
  | .ok v1 =>
  match strictAssign (workerDeclares "mem") "mem" v1 with
  | .error e => { trace := [], error := some e }
  | .ok mem =>
  -- line 17: `id = data[2]`
  match jsIndex data 2 with
  | .error e => { trace := [], error := some e }
  | .ok v2 =>
  match strictAssign (workerDeclares "id") "id" v2 with
  | .error e => { trace := [], error := some e }
  | .ok _id =>
  -- line 18: `stack_top = data[3]`
  match jsIndex data 3 with
  | .error e => { trace := [], error := some e }
  | .ok v3 =>
  match strictAssign (workerDeclares "stack_top") "stack_top" v3 with
  | .error e => { trace := [], error := some e }
  | .ok stack_top =>
  -- line 19: the argument expression `data.compiled`
  match jsCompiled data with
  | .error e => { trace := [], error := some e }
  | .ok image =>
  -- lines 19-21: `await WebAssembly.instantiate(image, {env: {memory: mem}})`
  match inst image mem with
  | none => { trace := [.instantiate image mem], error := some .instantiationFailed }
  | some w0 =>
  -- line 19: the assignment `wasm = ...` of the awaited instance
  match strictAssign (workerDeclares "wasm") "wasm" w0 with
  | .error e => { trace := [.instantiate image mem], error := some e }
  | .ok w =>
      -- lines 23-27: `wasm.exports.__sp.value = stack_top`,
      -- `__wasm_init_memory()`, `__wasm_init_tls()`,
      -- `init(__heap_base.value)`, `child_entry_point()`
      { trace := [.instantiate image mem,
                  .setSp stack_top,
                  .initMemory,
                  .initTls,
                  .initHook w.heap_base,
                  .callEntry .child]
        error := none }

/-- Host-creation and message-posting effects of one `spawn_worker` call. -/
structure SpawnEffects where
  workerCreated : Bool
  posted : Option Message
  deriving Repr, DecidableEq

/-- Shallow embedding of `spawn_worker` (src/js/worker.js lines 7-12, the
commented template `/* This section belongs in your existing source files`):
it unconditionally constructs a `Worker` and posts
`[cached_wasm, mem, id, stack_top]`. -/
def spawn_worker (cached_wasm mem : JSVal) (id stack_top : JSVal) : SpawnEffects :=
  { workerCreated := true
    posted := some [cached_wasm, mem, id, stack_top] }

/-! ## Once-guard (spec §4.3)

`worker.js` line 24 would call `__wasm_init_memory()`; the body of that
export, including the guard that makes it run exactly once, is
toolchain-generated wasm code that is not present in `src/`.  The guard is
modelled here from the spec. -/

/-- Modelled from the spec: the tri-state atomic coordination flag of §4.3
("uninitialized / in-progress / done"); the guarded body of
`__wasm_init_memory` is not in `src/`. -/
inductive GuardFlag where
  | uninitialized
  | inProgress
  | done
  deriving Repr, DecidableEq

/-- Where a context stands with respect to initialization step 2: about to run
it, executing the initializer body after winning the guard, or past step 2. -/
inductive ThreadPhase where
  | atInitMemory
  | runningBody
  | pastStep2
  deriving Repr, DecidableEq

/-- Modelled from the spec: global configuration of K racing contexts around
the once-guard.  `bodyRuns` counts how many times the initializer body was
entered. -/
structure GuardConfig where
  flag : GuardFlag
  threads : List ThreadPhase
  bodyRuns : Nat
  deriving Repr, DecidableEq

/-- Modelled from the spec (§4.3): one atomic step of context `i`.  A context
observing `uninitialized` transitions the flag atomically to `inProgress` and
becomes the initializer; a context observing `inProgress` blocks (no state
change); a context observing `done` proceeds immediately; the winner's body
completion publishes `done` and the winner proceeds. -/
def guardStep (c : GuardConfig) (i : Nat) : GuardConfig :=
  match c.threads.getD i .pastStep2 with
  | .atInitMemory =>
      match c.flag with
      | .uninitialized =>
          { flag := .inProgress
            threads := c.threads.set i .runningBody
            bodyRuns := c.bodyRuns + 1 }
      | .inProgress => c
      | .done => { c with threads := c.threads.set i .pastStep2 }
  | .runningBody =>
      { flag := .done
        threads := c.threads.set i .pastStep2
        bodyRuns := c.bodyRuns }
  | .pastStep2 => c

/-- Run the guard protocol under an arbitrary interleaving (schedule of
context indices). -/
def guardRun (sched : List Nat) (c : GuardConfig) : GuardConfig :=
  sched.foldl guardStep c

/-- K freshly spawned contexts, none initialized yet. -/
def guardInit (K : Nat) : GuardConfig :=
  { flag := .uninitialized
    threads := List.replicate K .atInitMemory
    bodyRuns := 0 }

/-- The inductive invariant of the once-guard protocol. -/
def GuardInv (c : GuardConfig) : Prop :=
  (c.flag = .uninitialized → c.bodyRuns = 0 ∧ ∀ p ∈ c.threads, p = .atInitMemory) ∧
  (c.flag ≠ .uninitialized → c.bodyRuns = 1) ∧
  (∀ p ∈ c.threads, p = .pastStep2 → c.flag = .done)

/-! ## Layout-checked spawn (spec §8, boundary property)

The memory-layout manager is not in `src/` (`spawn_worker` is a commented
template with no validation; the spec sizes the layout manager as part of the
unshipped substrate), so the boundary check is modelled from the spec. -/

/-- The error taxonomy entry for a failed layout check. -/
inductive SpawnError where
  | layout
  deriving Repr, DecidableEq

/-- Outcome of a layout-checked spawn request. -/
structure SpawnResult where
  workerCreated : Bool
  posted : Option Message
  err : Option SpawnError
  deriving Repr, DecidableEq

/-- Modelled from the spec: "spawning a context whose stack_top + stack-size
exceeds current Shared Memory Region size fails with a layout error before any
host is created" (§8); on success the spawner behaves as the `spawn_worker`
template does. -/
def spawnChecked (memSize stackSize stack_top : Nat)
    (cached_wasm mem id : JSVal) : SpawnResult :=
  if memSize < stack_top + stackSize then
    { workerCreated := false, posted := none, err := some .layout }
  else
    let e := spawn_worker cached_wasm mem id (.int stack_top)
    { workerCreated := e.workerCreated, posted := e.posted, err := none }

/-! ## Synchronization primitive (spec §4.4)

The futex-style `atomic.wait`/`atomic.notify` operations are host primitives
(the README names them as the mechanism); they are not in `src/` and are
modelled from the spec. -/

/-- The three outcomes of a `wait` per §4.4. -/
inductive WaitResult where
  | woken
  | valueChanged
  | timedOut
  deriving Repr, DecidableEq

/-- Shared state seen by the primitive: the shared memory (address-indexed
cells) and the queue of blocked contexts, each recorded with the address it
waits on. -/
structure SyncState where
  memory : List Int
  waiters : List (Nat × Nat)
  deriving Repr, DecidableEq

/-- Result of the atomic check-and-block step of `wait`: either the call
returns immediately, or the calling context is now blocked in the state. -/
inductive WaitStep where
  | immediate (r : WaitResult)
  | blocked (s : SyncState)
  deriving Repr, DecidableEq

/-- Modelled from the spec: `wait(address, expected_value, timeout)` "blocks
the calling context if and only if the current value at `address` still equals
`expected_value` at the moment of the check" (§4.4).  The timeout only
matters once blocked, so the check-and-block step ignores it. -/
def wait (s : SyncState) (ctx : Nat) (addr : Nat) (expected : Int)
    (_timeout : Nat) : WaitStep :=
  if s.memory.getD addr 0 = expected then
    .blocked { s with waiters := s.waiters ++ [(ctx, addr)] }
  else
    .immediate .valueChanged

/-- Remove (wake) up to `n` of the waiters blocked on `addr`, front of the
queue first; yields the remaining queue and the number woken. -/
def wakeWaiters (ws : List (Nat × Nat)) (addr : Nat) : Nat → List (Nat × Nat) × Nat
  | 0 => (ws, 0)
  | n + 1 =>
      match ws with
      | [] => ([], 0)
      | w :: rest =>
          if w.2 = addr then
            let r := wakeWaiters rest addr n
            (r.1, r.2 + 1)
          else
            let r := wakeWaiters rest addr (n + 1)
            (w :: r.1, r.2)

/-- Modelled from the spec: `notify(address, count)` "wakes up to `count`
blocked contexts waiting on `address`, returns the number actually woken"
(§4.4). -/
def notify (s : SyncState) (addr : Nat) (count : Nat) : SyncState × Nat :=
  let r := wakeWaiters s.waiters addr count
  ({ s with waiters := r.1 }, r.2)

/-! ## Repeated messages (worker lifetime) -/

/-- The handler run over a whole sequence of delivered messages (the script
installs `onmessage` once and every delivery triggers a fresh run), with the
wasm-side traces concatenated. -/
def processMessages (inst : JSVal → JSVal → Option WasmInstance) :
    List Message → List Effect
  | [] => []
  | m :: ms => (onmessage inst m).trace ++ processMessages inst ms

/-! ## Concrete fixtures shared by the theorems below -/

/-- The very message `spawn_worker cached_wasm mem id stack_top` posts for
image 0, shared memory 1, thread id 7, stack top 65536. -/
def msgEx : Message :=
  [.wasmModule 0, .memory 1, .int 7, .int 65536]

/-- An instantiation oracle that always fails. -/
def instFail : JSVal → JSVal → Option WasmInstance :=
  fun _ _ => none

/-- An instantiation oracle that always yields an instance whose
`__heap_base` is 2048 (more generous than the real collaborator, which
rejects the non-image `undefined` the handler would pass it). -/
def instOk : JSVal → JSVal → Option WasmInstance :=
  fun _ _ => some { sp := .undefined, heap_base := 2048 }

/-! ## Characterization of the handler -/

/-- Every handler run dies at line 16 before performing any wasm-side
operation: the strict-mode assignment to the undeclared `mem` throws a
`ReferenceError` (or, for a message without a proper first element, the
evaluation of `data[1]` already throws a `TypeError`). -/
theorem onmessage_always_rejects (inst : JSVal → JSVal → Option WasmInstance)
    (message : Message) :
    onmessage inst message =
      if msgIndex message 0 = .undefined then
        { trace := [], error := some .typeError }
      else
        { trace := [], error := some (.referenceError "mem") } := by
  cases h : msgIndex message 0 with
  | undefined => simp [onmessage, h, jsIndex]
  | int n => simp [onmessage, h, jsIndex, strictAssign, workerDeclares]
  | memory hd => simp [onmessage, h, jsIndex, strictAssign, workerDeclares]
  | wasmModule r => simp [onmessage, h, jsIndex, strictAssign, workerDeclares]

/-- No handler run ever performs a wasm-side operation. -/
theorem onmessage_trace_empty (inst : JSVal → JSVal → Option WasmInstance)
    (message : Message) :
    (onmessage inst message).trace = [] := by
  rw [onmessage_always_rejects inst message]
  by_cases h : msgIndex message 0 = .undefined <;> simp [h]

/-- However many messages are delivered, the cumulative wasm-side trace stays
empty. -/
theorem processMessages_empty (inst : JSVal → JSVal → Option WasmInstance)
    (ms : List Message) :
    processMessages inst ms = [] := by
  induction ms with
  | nil => rfl
  | cons m ms ih => simp [processMessages, onmessage_trace_empty, ih]

/-! ## Claim theorems -/

/-- C1 (counterexample/code bug): on the very message `spawn_worker` posts,
the handler throws the strict-mode `ReferenceError` at line 16 (assignment to
the undeclared `mem`) and rejects before any initialization step: the trace is
empty — in particular neither step 1 (`__sp = stack_top`) nor step 2
(`__wasm_init_memory`) is ever executed, for any instantiation oracle the
host could provide. -/
theorem init_sequence_never_runs :
    (onmessage instOk msgEx).error = some (.referenceError "mem") ∧
    (onmessage instOk msgEx).trace = [] ∧
    Effect.setSp (.int 65536) ∉ (onmessage instOk msgEx).trace ∧
    Effect.initMemory ∉ (onmessage instOk msgEx).trace ∧
    (onmessage instFail msgEx).trace = [] := by
  refine ⟨rfl, rfl, by decide, by decide, rfl⟩

/-- C2 (counterexample/code bug): evaluated on the very message
`spawn_worker` posts — `[cached_wasm, mem, id, stack_top]`, here
`[wasmModule 0, memory 1, int 7, int 65536]` — the handler does NOT bind the
four fields positionally: after `data = data[0]`, line 16 reads
`message[0][1]` (`undefined`, not the posted shared-memory handle) and then
throws the strict-mode `ReferenceError` on the undeclared `mem`, so no field
is ever bound and the posted image is never instantiated. -/
theorem onmessage_misbinds_startup_fields :
    (spawn_worker (.wasmModule 0) (.memory 1) (.int 7) (.int 65536)).posted
      = some msgEx ∧
    jsIndex (msgIndex msgEx 0) 1 = .ok .undefined ∧
    (onmessage instOk msgEx).error = some (.referenceError "mem") ∧
    (onmessage instOk msgEx).trace = [] ∧
    Effect.instantiate (.wasmModule 0) (.memory 1) ∉ (onmessage instOk msgEx).trace := by
  refine ⟨rfl, rfl, rfl, rfl, by decide⟩

/-- C3 (counterexample/code bug): the posted Shared Memory Handle sits at
`message[1]` (`memory 1`), but the memory-import expression of line 16 reads
`message[0][1]` (`undefined`); the run then rejects at the strict-mode
assignment, so no instantiation occurs at all and no instance is ever bound
to the shared memory — with any memory import, let alone the posted
handle. -/
theorem onmessage_imports_wrong_memory :
    msgIndex msgEx 1 = .memory 1 ∧
    jsIndex (msgIndex msgEx 0) 1 ≠ .ok (.memory 1) ∧
    (onmessage instOk msgEx).trace = [] ∧
    Effect.instantiate .undefined (.memory 1) ∉ (onmessage instOk msgEx).trace ∧
    Effect.instantiate (.wasmModule 0) (.memory 1) ∉ (onmessage instOk msgEx).trace := by
  refine ⟨rfl, ?_, rfl, by decide, by decide⟩
  intro hcontra
  exact nomatch hcontra

/-- C6 (counterexample/code bug): the image-instantiation error path the claim
describes is unreachable — on the posted startup message the handler rejects
at line 16 with the `ReferenceError`, before `WebAssembly.instantiate` is ever
attempted: even under an oracle that fails every instantiation, the trace
contains no instantiation attempt and the rejection is the `ReferenceError`,
not an instantiation failure. -/
theorem instantiation_never_reached :
    (onmessage instFail msgEx).error = some (.referenceError "mem") ∧
    (onmessage instFail msgEx).error ≠ some .instantiationFailed ∧
    (onmessage instFail msgEx).trace = [] ∧
    Effect.instantiate .undefined .undefined ∉ (onmessage instFail msgEx).trace := by
  refine ⟨rfl, by decide, rfl, by decide⟩

/-- C7 (counterexample/code bug): `child_entry_point()` at line 27 is
unreachable — on the posted startup message the handler rejects at line 16, so
the trace ends with no entry-point invocation at all. -/
theorem child_entry_point_unreachable :
    (onmessage instOk msgEx).trace.getLast? ≠ some (.callEntry .child) ∧
    Effect.callEntry .child ∉ (onmessage instOk msgEx).trace ∧
    Effect.callEntry .main ∉ (onmessage instOk msgEx).trace ∧
    (onmessage instOk msgEx).error = some (.referenceError "mem") := by
  refine ⟨by decide, by decide, by decide, rfl⟩

/-- C9: the handler's behaviour is independent of the thread-id field of the
startup message — two startup messages that differ only in field 3 (index 2)
produce identical handler results (the same trace and the same rejection), for
every instantiation oracle: nothing the handler evaluates ever reads
`message[2]`. -/
theorem thread_id_noninterference (inst : JSVal → JSVal → Option WasmInstance)
    (a b c c' d : JSVal) :
    onmessage inst [a, b, c, d] = onmessage inst [a, b, c', d] := rfl

/-- C10 (counterexample/code bug): delivered messages never re-run any
bootstrap: three deliveries of the posted startup message accumulate an empty
wasm-side trace — no instantiation, no initialization step, no entry-point
call — with every run rejecting at line 16. -/
theorem no_message_ever_bootstraps :
    processMessages instOk [msgEx, msgEx, msgEx] = [] ∧
    (onmessage instOk msgEx).error = some (.referenceError "mem") ∧
    Effect.initMemory ∉ processMessages instOk [msgEx, msgEx, msgEx] ∧
    Effect.callEntry .child ∉ processMessages instOk [msgEx, msgEx, msgEx] := by
  refine ⟨rfl, rfl, by decide, by decide⟩

/-! ## Once-guard invariant -/

/-- An element read by `getD` that differs from the default is a member of the
list. -/
theorem mem_of_getD_ne {α : Type} (l : List α) (i : Nat) (d x : α)
    (h : l.getD i d = x) (hx : x ≠ d) : x ∈ l := by
  rw [List.getD_eq_getElem?_getD] at h
  cases hh : l[i]? with
  | none =>
      rw [hh] at h
      simp only [Option.getD_none] at h
      exact absurd h.symm hx
  | some y =>
      rw [hh] at h
      simp only [Option.getD_some] at h
      exact h ▸ List.getElem?_mem hh

/-- One step of any context preserves the once-guard invariant. -/
theorem guardStep_inv {c : GuardConfig} (i : Nat) (h : GuardInv c) :
    GuardInv (guardStep c i) := by
  obtain ⟨h1, h2, h3⟩ := h
  unfold GuardInv
  cases hp : c.threads.getD i .pastStep2 with
  | atInitMemory =>
      cases hf : c.flag with
      | uninitialized =>
          have hstep : guardStep c i =
              { flag := .inProgress, threads := c.threads.set i .runningBody,
                bodyRuns := c.bodyRuns + 1 } := by
            simp only [guardStep, hp, hf]
          rw [hstep]
          refine ⟨?_, ?_, ?_⟩
          · intro hcontra
            exact nomatch hcontra
          · intro _
            rw [(h1 hf).1]
          · intro p hpmem hpp
            rcases List.mem_or_eq_of_mem_set hpmem with hin | he
            · rw [(h1 hf).2 p hin] at hpp
              exact absurd hpp (by decide)
            · rw [he] at hpp
              exact absurd hpp (by decide)
      | inProgress =>
          have hstep : guardStep c i = c := by
            simp only [guardStep, hp, hf]
          rw [hstep]
          exact ⟨h1, h2, h3⟩
      | done =>
          have hstep : guardStep c i =
              { c with threads := c.threads.set i .pastStep2 } := by
            simp only [guardStep, hp, hf]
          rw [hstep]
          refine ⟨?_, ?_, ?_⟩
          · intro hcontra
            rw [hf] at hcontra
            exact nomatch hcontra
          · intro _
            exact h2 (by simp [hf])
          · intro _ _ _
            exact hf
  | runningBody =>
      have hrb : ThreadPhase.runningBody ∈ c.threads :=
        mem_of_getD_ne _ i _ _ hp (by decide)
      have hne : c.flag ≠ .uninitialized := by
        intro hf0
        exact absurd ((h1 hf0).2 _ hrb) (by decide)
      have hstep : guardStep c i =
          { flag := .done, threads := c.threads.set i .pastStep2,
            bodyRuns := c.bodyRuns } := by
        simp only [guardStep, hp]
      rw [hstep]
      refine ⟨?_, ?_, ?_⟩
      · intro hcontra
        exact nomatch hcontra
      · intro _
        exact h2 hne
      · intro _ _ _
        rfl
  | pastStep2 =>
      have hstep : guardStep c i = c := by
        simp only [guardStep, hp]
      rw [hstep]
      exact ⟨h1, h2, h3⟩

/-- The invariant holds of K freshly spawned contexts. -/
theorem guardInit_inv (K : Nat) : GuardInv (guardInit K) := by
  refine ⟨fun _ => ⟨rfl, fun p hp => List.eq_of_mem_replicate hp⟩,
    fun hc => absurd rfl hc, ?_⟩
  intro p hp hpp
  rw [List.eq_of_mem_replicate hp] at hpp
  exact absurd hpp (by decide)

/-- Any interleaving preserves the once-guard invariant. -/
theorem guardRun_inv (sched : List Nat) {c : GuardConfig} (h : GuardInv c) :
    GuardInv (guardRun sched c) := by
  induction sched generalizing c with
  | nil => exact h
  | cons i rest ih => exact ih (guardStep_inv i h)

/-- C4: however many contexts race and whatever the interleaving, the Memory
Initializer body is entered at most once in total, and a context that has
proceeded past initialization step 2 has observed the guard at `done` with the
(single) initializer run complete. -/
theorem memory_initializer_once (K : Nat) (sched : List Nat) :
    (guardRun sched (guardInit K)).bodyRuns ≤ 1 ∧
    ∀ p ∈ (guardRun sched (guardInit K)).threads, p = .pastStep2 →
      (guardRun sched (guardInit K)).flag = .done ∧
      (guardRun sched (guardInit K)).bodyRuns = 1 := by
  obtain ⟨h1, h2, h3⟩ := guardRun_inv sched (guardInit_inv K)
  constructor
  · by_cases hf : (guardRun sched (guardInit K)).flag = .uninitialized
    · rw [(h1 hf).1]
      exact Nat.zero_le 1
    · rw [h2 hf]
  · intro p hp hpp
    have hdone := h3 p hp hpp
    exact ⟨hdone, h2 (by simp [hdone])⟩

/-- Witness for C4: three racing contexts under a concrete interleaving; one
body run, and a context past step 2 sees `done`. -/
theorem memory_initializer_once_witness :
    (guardRun [0, 1, 0, 1, 2] (guardInit 3)).bodyRuns ≤ 1 ∧
    ThreadPhase.pastStep2 ∈ (guardRun [0, 1, 0, 1, 2] (guardInit 3)).threads ∧
    (guardRun [0, 1, 0, 1, 2] (guardInit 3)).flag = .done ∧
    (guardRun [0, 1, 0, 1, 2] (guardInit 3)).bodyRuns = 1 :=
  ⟨(memory_initializer_once 3 [0, 1, 0, 1, 2]).1, by decide,
   ((memory_initializer_once 3 [0, 1, 0, 1, 2]).2 .pastStep2 (by decide) rfl).1,
   ((memory_initializer_once 3 [0, 1, 0, 1, 2]).2 .pastStep2 (by decide) rfl).2⟩

/-! ## Layout check and synchronization primitive -/

/-- C5: a spawn request whose `stack_top + stackSize` exceeds the current
Shared Memory Region size fails with a layout error before any execution host
is created: no Worker is constructed and no startup message is posted. -/
theorem spawn_layout_error (memSize stackSize stack_top : Nat)
    (cached_wasm mem id : JSVal)
    (h : memSize < stack_top + stackSize) :
    spawnChecked memSize stackSize stack_top cached_wasm mem id =
      { workerCreated := false, posted := none, err := some .layout } := by
  simp [spawnChecked, h]

/-- Witness for C5: a concrete oversized spawn request is rejected with a
layout error and creates nothing. -/
theorem spawn_layout_error_witness :
    100 < 80 + 50 ∧
    spawnChecked 100 50 80 (.wasmModule 0) (.memory 1) (.int 7) =
      { workerCreated := false, posted := none, err := some .layout } :=
  ⟨by decide,
   spawn_layout_error 100 50 80 (.wasmModule 0) (.memory 1) (.int 7) (by decide)⟩

/-- `wakeWaiters` removes exactly `min n (number of waiters on addr)` waiters
on `addr` and reports that count. -/
theorem wakeWaiters_spec (ws : List (Nat × Nat)) (addr : Nat) (n : Nat) :
    (wakeWaiters ws addr n).2 = min n (ws.countP fun w => w.2 == addr) ∧
    ((wakeWaiters ws addr n).1.countP fun w => w.2 == addr)
      = (ws.countP fun w => w.2 == addr) - (wakeWaiters ws addr n).2 := by
  induction ws generalizing n with
  | nil =>
      cases n <;> simp [wakeWaiters]
  | cons w rest ih =>
      cases n with
      | zero => simp [wakeWaiters]
      | succ n =>
          by_cases hw : w.2 = addr
          · have hcount : ((w :: rest).countP fun x => x.2 == addr)
                = (rest.countP fun x => x.2 == addr) + 1 :=
              List.countP_cons_of_pos _ _ (by simpa using hw)
            have hstep : wakeWaiters (w :: rest) addr (n + 1)
                = ((wakeWaiters rest addr n).1, (wakeWaiters rest addr n).2 + 1) := by
              simp [wakeWaiters, hw]
            obtain ⟨ih1, ih2⟩ := ih n
            have hle : (wakeWaiters rest addr n).2
                ≤ rest.countP fun x => x.2 == addr := by
              rw [ih1]; exact Nat.min_le_right _ _
            rw [hstep, hcount]
            constructor
            · rw [show ((wakeWaiters rest addr n).1, (wakeWaiters rest addr n).2 + 1).2
                    = (wakeWaiters rest addr n).2 + 1 from rfl, ih1, Nat.succ_min_succ]
            · rw [show ((wakeWaiters rest addr n).1, (wakeWaiters rest addr n).2 + 1).1
                    = (wakeWaiters rest addr n).1 from rfl, ih2]
              omega
          · have hcount : ((w :: rest).countP fun x => x.2 == addr)
                = rest.countP fun x => x.2 == addr :=
              List.countP_cons_of_neg _ _ (by simpa using hw)
            have hstep : wakeWaiters (w :: rest) addr (n + 1)
                = (w :: (wakeWaiters rest addr (n + 1)).1,
                   (wakeWaiters rest addr (n + 1)).2) := by
              simp [wakeWaiters, hw]
            obtain ⟨ih1, ih2⟩ := ih (n + 1)
            rw [hstep, hcount]
            refine ⟨ih1, ?_⟩
            rw [show (w :: (wakeWaiters rest addr (n + 1)).1,
                  (wakeWaiters rest addr (n + 1)).2).1
                = w :: (wakeWaiters rest addr (n + 1)).1 from rfl,
               List.countP_cons_of_neg _ _ (by simpa using hw), ih2]

/-- C8: the synchronization primitive's contract — `wait` blocks exactly when
the value at the address equals the expected value at the moment of the check
and returns immediately with `valueChanged` otherwise; `notify` wakes
`min n (waiters on addr)` contexts, never more than `n`, removes exactly the
contexts it reports woken from the wait queue, and reports 0 when nobody is
waiting. -/
theorem sync_primitive_contract :
    (∀ (s : SyncState) (ctx addr : Nat) (v : Int) (t : Nat),
        s.memory.getD addr 0 ≠ v → wait s ctx addr v t = .immediate .valueChanged) ∧
    (∀ (s : SyncState) (ctx addr : Nat) (v : Int) (t : Nat),
        s.memory.getD addr 0 = v →
          wait s ctx addr v t =
            .blocked { s with waiters := s.waiters ++ [(ctx, addr)] }) ∧
    ∀ (s : SyncState) (addr n : Nat),
      (notify s addr n).2 = min n (s.waiters.countP fun w => w.2 == addr) ∧
      (notify s addr n).2 ≤ n ∧
      ((notify s addr n).1.waiters.countP fun w => w.2 == addr)
        = (s.waiters.countP fun w => w.2 == addr) - (notify s addr n).2 ∧
      ((s.waiters.countP fun w => w.2 == addr) = 0 → (notify s addr n).2 = 0) := by
  refine ⟨?_, ?_, ?_⟩
  · intro s ctx addr v t h
    unfold wait
    rw [if_neg h]
  · intro s ctx addr v t h
    unfold wait
    rw [if_pos h]
  · intro s addr n
    obtain ⟨h1, h2⟩ := wakeWaiters_spec s.waiters addr n
    have e2 : (notify s addr n).2 = (wakeWaiters s.waiters addr n).2 := rfl
    have e1 : (notify s addr n).1.waiters = (wakeWaiters s.waiters addr n).1 := rfl
    refine ⟨?_, ?_, ?_, ?_⟩
    · rw [e2, h1]
    · rw [e2, h1]
      exact Nat.min_le_left _ _
    · rw [e1, e2, h2]
    · intro h0
      rw [e2, h1, h0]
      simp

/-- A concrete synchronization state: value 5 at address 0, contexts 0 and 1
waiting on address 0, context 2 waiting on address 3. -/
def syncEx : SyncState :=
  { memory := [5], waiters := [(0, 0), (1, 0), (2, 3)] }

/-- Witness for C8: concrete non-blocking wait, blocking wait, a notify waking
exactly two waiters, and a notify with nobody waiting returning 0. -/
theorem sync_primitive_contract_witness :
    wait syncEx 9 0 6 10 = .immediate .valueChanged ∧
    wait syncEx 9 0 5 10
      = .blocked { syncEx with waiters := syncEx.waiters ++ [(9, 0)] } ∧
    (notify syncEx 0 2).2 = 2 ∧
    (notify { memory := [5], waiters := [] } 0 2).2 = 0 := by
  refine ⟨sync_primitive_contract.1 syncEx 9 0 6 10 (by decide),
          sync_primitive_contract.2.1 syncEx 9 0 5 10 (by decide), ?_, ?_⟩
  · rw [(sync_primitive_contract.2.2 syncEx 0 2).1]
    decide
  · exact ((sync_primitive_contract.2.2 { memory := [5], waiters := [] } 0 2).2.2).2
      (by decide)

end WebWorker
